import Mathlib

/-
Verification development for the bit-banged I2C bus master
(src/main/drivers/i2c.c) and the SSD1306 OLED display driver
(src/main/devices/ssd1306.h) of the esp32-riscv-bare-metal-os repository.

The drivers are embedded shallowly:
- the wire protocol is modelled as a trace of events;
- the environment (the remote device) is a function giving the acknowledge
  response observed for each byte transmitted on the bus, indexed by a running
  count of transmitted bytes threaded through every operation;
- the framebuffer is a function from byte index to byte value;
- machine integers are Nat (or Int where the C type is int), with an explicit
  mod 256 wherever the C code truncates a value into a uint8_t parameter.

Two levels of abstraction are used.  The byte level (I2CEv) records start
conditions, stop conditions and transmitted bytes with their acknowledge
results; all transaction-shaped functions (i2c_write, i2c_write_reg and the
SSD1306 driver built on them) live there.  The line level (LineEv) records the
individual SCL/SDA line operations of i2c_write_byte, for the claim about its
bit-by-bit behaviour.
-/

set_option maxRecDepth 40000

namespace Esp32

/-- Byte-level event on the two-wire bus: a start condition, a stop condition,
or the transmission of one byte together with the acknowledge response that
i2c_write_byte reported for it. -/
inductive I2CEv where
  | start : I2CEv
  | stop : I2CEv
  | byte : Nat → Bool → I2CEv
deriving DecidableEq

/-- The environment in which every device acknowledges every byte (a healthy
display on the bus). -/
def allAck : Nat → Bool := fun _ => true

/-- Byte-level model of i2c_write_byte (src/main/drivers/i2c.c lines 131-150):
transmits one byte and reports the acknowledge sampled from the device.  The
acknowledge is the response of the environment for the n-th byte on the bus;
the byte itself is reduced mod 256 because the C parameter type is uint8_t.
Returns (acknowledge, new byte count, trace). -/
def wbyteEv (acks : Nat → Bool) (b : Nat) (n : Nat) : Bool × Nat × List I2CEv :=
  (acks n, n + 1, [I2CEv.byte (b % 256) (acks n)])

/-- Byte-level model of i2c_start (src/main/drivers/i2c.c lines 115-122): emits
the start condition and always reports success, exactly as the source, whose
return value is the constant true. -/
def i2c_start : Bool × List I2CEv := (true, [I2CEv.start])

/-- Byte-level model of i2c_stop (src/main/drivers/i2c.c lines 124-129): emits
the stop condition. -/
def i2c_stop : List I2CEv := [I2CEv.stop]

/-- The payload loop shared by i2c_write (lines 191-196), i2c_write_reg (lines
220-225) and ssd1306_send_data (ssd1306.h lines 155-160): writes the bytes in
order and aborts at the first byte that is not acknowledged.  In the source the
abort path calls i2c_stop before returning false; in this model the caller
appends the stop event, which it does on every path, so the traces agree. -/
def writeLoop (acks : Nat → Bool) : List Nat → Nat → Bool × Nat × List I2CEv
  | [], n => (true, n, [])
  | d :: ds, n =>
    let w := wbyteEv acks d n
    if w.1 = false then (false, w.2.1, w.2.2)
    else
      let r := writeLoop acks ds w.2.1
      (r.1, r.2.1, w.2.2 ++ r.2.2)

/-- Transaction-level model of i2c_write (src/main/drivers/i2c.c lines
179-200): start condition, address byte (the 7-bit address shifted left by one,
write bit 0 in the low bit, truncated to uint8_t by the parameter type), the
payload bytes, and a stop condition on every path, with abort-and-stop at the
first unacknowledged byte.  Returns (success, new byte count, trace). -/
def i2c_write (acks : Nat → Bool) (addr : Nat) (data : List Nat) (n : Nat) :
    Bool × Nat × List I2CEv :=
  let s := i2c_start
  if s.1 = false then (false, n, s.2)
  else
    let a := wbyteEv acks (addr <<< 1) n
    if a.1 = false then (false, a.2.1, s.2 ++ a.2.2 ++ i2c_stop)
    else
      let l := writeLoop acks data a.2.1
      (l.1, l.2.1, s.2 ++ a.2.2 ++ l.2.2 ++ i2c_stop)

/-- Transaction-level model of i2c_write_reg (src/main/drivers/i2c.c lines
202-229): like i2c_write but with the register byte transmitted between the
address byte and the payload. -/
def i2c_write_reg (acks : Nat → Bool) (addr reg : Nat) (data : List Nat) (n : Nat) :
    Bool × Nat × List I2CEv :=
  let s := i2c_start
  if s.1 = false then (false, n, s.2)
  else
    let a := wbyteEv acks (addr <<< 1) n
    if a.1 = false then (false, a.2.1, s.2 ++ a.2.2 ++ i2c_stop)
    else
      let r := wbyteEv acks reg a.2.1
      if r.1 = false then (false, r.2.1, s.2 ++ a.2.2 ++ r.2.2 ++ i2c_stop)
      else
        let l := writeLoop acks data r.2.1
        (l.1, l.2.1, s.2 ++ a.2.2 ++ r.2.2 ++ l.2.2 ++ i2c_stop)

/-- The configuration passed to i2c_init (src/main/drivers/i2c.h). -/
structure i2c_config_t where
  scl_pin : Int
  sda_pin : Int
  freq_hz : Nat
deriving DecidableEq

/-- The delay count stored by i2c_init (src/main/drivers/i2c.c line 104):
i2c_delay_cycles = (160000000 / config->freq_hz) / 4 in C unsigned integer
division.  The GPIO configuration performed by the rest of i2c_init touches no
bus state modelled here. -/
def i2c_init_delay_cycles (config : i2c_config_t) : Nat :=
  160000000 / config.freq_hz / 4

/-- Display width in pixels (ssd1306.h). -/
def SSD1306_WIDTH : Nat := 128

/-- Display height in pixels (ssd1306.h). -/
def SSD1306_HEIGHT : Nat := 64

def SSD1306_I2C_ADDR_DEFAULT : Nat := 0x3C

def SSD1306_CMD_SET_CONTRAST : Nat := 0x81
def SSD1306_CMD_DISPLAY_ALL_ON_RESUME : Nat := 0xA4
def SSD1306_CMD_NORMAL_DISPLAY : Nat := 0xA6
def SSD1306_CMD_DISPLAY_OFF : Nat := 0xAE
def SSD1306_CMD_DISPLAY_ON : Nat := 0xAF
def SSD1306_CMD_SET_DISPLAY_OFFSET : Nat := 0xD3
def SSD1306_CMD_SET_START_LINE : Nat := 0x40
def SSD1306_CMD_MEMORY_MODE : Nat := 0x20
def SSD1306_CMD_COLUMN_ADDR : Nat := 0x21
def SSD1306_CMD_PAGE_ADDR : Nat := 0x22
def SSD1306_CMD_SET_COM_PINS : Nat := 0xDA
def SSD1306_CMD_SET_DISPLAY_CLK_DIV : Nat := 0xD5
def SSD1306_CMD_SET_PRECHARGE : Nat := 0xD9
def SSD1306_CMD_SET_VCOM_DETECT : Nat := 0xDB
def SSD1306_CMD_SET_MULTIPLEX : Nat := 0xA8
def SSD1306_CMD_SEG_REMAP : Nat := 0xA0
def SSD1306_CMD_COM_SCAN_DEC : Nat := 0xC8
def SSD1306_CMD_CHARGE_PUMP : Nat := 0x8D

def SSD1306_CONTROL_CMD_SINGLE : Nat := 0x80
def SSD1306_CONTROL_DATA_STREAM : Nat := 0x40

/-- The display framebuffer, a function from byte index (0..1023 in use) to
byte value (a uint8_t in the source, so always below 256 in reachable
states). -/
abbrev FB : Type := Nat → Nat

/-- Model of ssd1306_send_command (ssd1306.h lines 130-133): one i2c_write
transaction whose payload is the single-command control byte 0x80 followed by
the command byte. -/
def ssd1306_send_command (acks : Nat → Bool) (addr cmd n : Nat) :
    Bool × Nat × List I2CEv :=
  i2c_write acks addr [SSD1306_CONTROL_CMD_SINGLE, cmd] n

/-- Model of ssd1306_send_data (ssd1306.h lines 137-164): one hand-rolled
transaction of start, address byte, the data-stream control byte 0x40, all
payload bytes, and stop, with the same abort-and-stop policy as i2c_write. -/
def ssd1306_send_data (acks : Nat → Bool) (addr : Nat) (data : List Nat) (n : Nat) :
    Bool × Nat × List I2CEv :=
  let s := i2c_start
  if s.1 = false then (false, n, s.2)
  else
    let a := wbyteEv acks (addr <<< 1) n
    if a.1 = false then (false, a.2.1, s.2 ++ a.2.2 ++ i2c_stop)
    else
      let c := wbyteEv acks SSD1306_CONTROL_DATA_STREAM a.2.1
      if c.1 = false then (false, c.2.1, s.2 ++ a.2.2 ++ c.2.2 ++ i2c_stop)
      else
        let l := writeLoop acks data c.2.1
        (l.1, l.2.1, s.2 ++ a.2.2 ++ c.2.2 ++ l.2.2 ++ i2c_stop)

/-- Model of ssd1306_clear (ssd1306.h lines 251-253): memset of the whole
buffer to zero. -/
def ssd1306_clear : FB := fun _ => 0

/-- The byte sequence ssd1306_display passes to ssd1306_send_data: the 1024
framebuffer bytes in index order (sizeof of the buffer array). -/
def fbBytes (buf : FB) : List Nat :=
  (List.range (SSD1306_WIDTH * SSD1306_HEIGHT / 8)).map buf

/-- Model of ssd1306_display (ssd1306.h lines 257-270): six
ssd1306_send_command calls (column address range 0..WIDTH-1, page address range
0..HEIGHT/8-1, each command byte its own transaction) followed by one
ssd1306_send_data transaction carrying the whole buffer.  The boolean results
are discarded as in the void source function; the returned pair is the new byte
count and the trace. -/
def ssd1306_display (acks : Nat → Bool) (addr : Nat) (buf : FB) (n : Nat) :
    Nat × List I2CEv :=
  let c1 := ssd1306_send_command acks addr SSD1306_CMD_COLUMN_ADDR n
  let c2 := ssd1306_send_command acks addr 0 c1.2.1
  let c3 := ssd1306_send_command acks addr (SSD1306_WIDTH - 1) c2.2.1
  let c4 := ssd1306_send_command acks addr SSD1306_CMD_PAGE_ADDR c3.2.1
  let c5 := ssd1306_send_command acks addr 0 c4.2.1
  let c6 := ssd1306_send_command acks addr (SSD1306_HEIGHT / 8 - 1) c5.2.1
  let d := ssd1306_send_data acks addr (fbBytes buf) c6.2.1
  (d.2.1, c1.2.2 ++ c2.2.2 ++ c3.2.2 ++ c4.2.2 ++ c5.2.2 ++ c6.2.2 ++ d.2.2)

/-- The configuration passed to ssd1306_init (ssd1306.h). -/
structure ssd1306_config_t where
  i2c_addr : Nat
  scl_pin : Int
  sda_pin : Int

/-- Result of ssd1306_init: the returned boolean, the i2c configuration it
passed to i2c_init, the buffer state after the embedded clear, the byte count
and the bus trace. -/
structure InitOut where
  ok : Bool
  i2cCfg : i2c_config_t
  buf : FB
  n : Nat
  tr : List I2CEv

/-- Model of ssd1306_init (ssd1306.h lines 166-247): stores the device address,
calls i2c_init with the pins and a fixed 400000 Hz frequency, busy-waits for
the power-up settle delay (no bus traffic), issues the bring-up command
sequence with every boolean result discarded, clears the buffer, refreshes the
display, and returns true unconditionally. -/
def ssd1306_init (acks : Nat → Bool) (config : ssd1306_config_t) (n : Nat) : InitOut :=
  let addr := config.i2c_addr
  let i2cCfg : i2c_config_t :=
    { scl_pin := config.scl_pin, sda_pin := config.sda_pin, freq_hz := 400000 }
  let r1 := ssd1306_send_command acks addr SSD1306_CMD_DISPLAY_OFF n
  let r2 := ssd1306_send_command acks addr SSD1306_CMD_SET_DISPLAY_CLK_DIV r1.2.1
  let r3 := ssd1306_send_command acks addr 0x80 r2.2.1
  let r4 := ssd1306_send_command acks addr SSD1306_CMD_SET_MULTIPLEX r3.2.1
  let r5 := ssd1306_send_command acks addr (SSD1306_HEIGHT - 1) r4.2.1
  let r6 := ssd1306_send_command acks addr SSD1306_CMD_SET_DISPLAY_OFFSET r5.2.1
  let r7 := ssd1306_send_command acks addr 0x00 r6.2.1
  let r8 := ssd1306_send_command acks addr (SSD1306_CMD_SET_START_LINE ||| 0x00) r7.2.1
  let r9 := ssd1306_send_command acks addr SSD1306_CMD_CHARGE_PUMP r8.2.1
  let r10 := ssd1306_send_command acks addr 0x14 r9.2.1
  let r11 := ssd1306_send_command acks addr SSD1306_CMD_MEMORY_MODE r10.2.1
  let r12 := ssd1306_send_command acks addr 0x00 r11.2.1
  let r13 := ssd1306_send_command acks addr (SSD1306_CMD_SEG_REMAP ||| 0x01) r12.2.1
  let r14 := ssd1306_send_command acks addr SSD1306_CMD_COM_SCAN_DEC r13.2.1
  let r15 := ssd1306_send_command acks addr SSD1306_CMD_SET_COM_PINS r14.2.1
  let r16 := ssd1306_send_command acks addr 0x12 r15.2.1
  let r17 := ssd1306_send_command acks addr SSD1306_CMD_SET_CONTRAST r16.2.1
  let r18 := ssd1306_send_command acks addr 0xCF r17.2.1
  let r19 := ssd1306_send_command acks addr SSD1306_CMD_SET_PRECHARGE r18.2.1
  let r20 := ssd1306_send_command acks addr 0xF1 r19.2.1
  let r21 := ssd1306_send_command acks addr SSD1306_CMD_SET_VCOM_DETECT r20.2.1
  let r22 := ssd1306_send_command acks addr 0x40 r21.2.1
  let r23 := ssd1306_send_command acks addr SSD1306_CMD_DISPLAY_ALL_ON_RESUME r22.2.1
  let r24 := ssd1306_send_command acks addr SSD1306_CMD_NORMAL_DISPLAY r23.2.1
  let r25 := ssd1306_send_command acks addr SSD1306_CMD_DISPLAY_ON r24.2.1
  let buf := ssd1306_clear
  let d := ssd1306_display acks addr buf r25.2.1
  { ok := true, i2cCfg := i2cCfg, buf := buf, n := d.1,
    tr := r1.2.2 ++ r2.2.2 ++ r3.2.2 ++ r4.2.2 ++ r5.2.2 ++ r6.2.2 ++ r7.2.2 ++
      r8.2.2 ++ r9.2.2 ++ r10.2.2 ++ r11.2.2 ++ r12.2.2 ++ r13.2.2 ++ r14.2.2 ++
      r15.2.2 ++ r16.2.2 ++ r17.2.2 ++ r18.2.2 ++ r19.2.2 ++ r20.2.2 ++ r21.2.2 ++
      r22.2.2 ++ r23.2.2 ++ r24.2.2 ++ r25.2.2 ++ d.2 }

/-- Extracts, in order, the command bytes of the single-command transactions of
a trace: a transaction of shape start, address byte, control byte 0x80, command
byte, stop contributes its command byte. -/
def cmdPayloads : List I2CEv → List Nat
  | I2CEv.start :: I2CEv.byte _ _ :: I2CEv.byte 128 _ :: I2CEv.byte c _ ::
      I2CEv.stop :: rest => c :: cmdPayloads rest
  | _ :: rest => cmdPayloads rest
  | [] => []

/-- Model of ssd1306_set_pixel (ssd1306.h lines 274-299): bounds check with
silent return, then set or clear bit (y and 7) of buffer byte
x + (y / 8) * SSD1306_WIDTH.  The coordinates are C ints, hence Int here; after
the bounds check both are non-negative, so toNat is exact and C truncating
division on y agrees with Nat division.  The clear branch masks with the uint8
complement of the bit, as the C and-assignment into a uint8_t cell does. -/
def ssd1306_set_pixel (buf : FB) (x y : Int) (color : Nat) : FB :=
  if x < 0 ∨ x ≥ (SSD1306_WIDTH : Int) ∨ y < 0 ∨ y ≥ (SSD1306_HEIGHT : Int) then buf
  else
    let idx := (x + y / 8 * (SSD1306_WIDTH : Int)).toNat
    let bit := y.toNat &&& 7
    if color ≠ 0 then Function.update buf idx (buf idx ||| (1 <<< bit))
    else Function.update buf idx (buf idx &&& (255 ^^^ (1 <<< bit)))

/-- Modelled from the spec: the font5x7 glyph table (font5x7.h) is not among
the sources; the spec treats it as an opaque lookup table from character code
to a fixed 5-column bitmap, so it is a parameter here: glyph index (the
character code minus 32 in the driver) and column index to column byte. -/
abbrev Font : Type := Nat → Nat → Nat

/-- Model of ssd1306_draw_char (ssd1306.h lines 303-318): codes outside 32..126
are replaced by 32 (space); then for each of the 5 glyph columns and each of
the 7 rows, the pixel is set (color 1) when the corresponding glyph bit is
set. -/
def ssd1306_draw_char (font : Font) (buf : FB) (x y : Int) (c : Nat) : FB :=
  let c2 := if c < 32 ∨ c > 126 then 32 else c
  (List.range 5).foldl
    (fun b i =>
      let line := font (c2 - 32) i
      (List.range 7).foldl
        (fun b2 j =>
          if line &&& (1 <<< j) ≠ 0 then
            ssd1306_set_pixel b2 (x + (i : Int)) (y + (j : Int)) 1
          else b2)
        b)
    buf

/-- The loop of ssd1306_draw_string (ssd1306.h lines 322-340), with the
starting column x kept as the reset target and the running cursor as a separate
argument: a line-break character (code 10) resets the cursor to x and advances
the row by 8; any other character is drawn at the cursor, which then advances
by 6 and wraps to a new row when it reaches the display width. -/
def drawStrAux (font : Font) (x : Int) : List Nat → Int → Int → FB → FB
  | [], _, _, buf => buf
  | c :: rest, cx, y, buf =>
    if c = 10 then drawStrAux font x rest x (y + 8) buf
    else
      let b2 := ssd1306_draw_char font buf cx y c
      let cx2 := cx + 6
      if cx2 ≥ (SSD1306_WIDTH : Int) then drawStrAux font x rest x (y + 8) b2
      else drawStrAux font x rest cx2 y b2

/-- Model of ssd1306_draw_string (ssd1306.h lines 322-340); the string is the
list of its character codes. -/
def ssd1306_draw_string (font : Font) (buf : FB) (x y : Int) (s : List Nat) : FB :=
  drawStrAux font x s x y buf

/-- Line-level event on the two bus wires: releasing or pulling each line, and
sampling the data line (with the level observed). -/
inductive LineEv where
  | sclHigh : LineEv
  | sclLow : LineEv
  | sdaHigh : LineEv
  | sdaLow : LineEv
  | sdaRead : Bool → LineEv
deriving DecidableEq

/-- The data-bit loop of i2c_write_byte (src/main/drivers/i2c.c lines 133-141),
counting the C loop index i down from 7 to 0 (the argument here is i + 1): the
data line is driven to the value of bit i while the clock is low, then the
clock is pulsed high then low. -/
def writeBitsAux (data : Nat) : Nat → List LineEv
  | 0 => []
  | i + 1 =>
    (if data &&& (1 <<< i) ≠ 0 then LineEv.sdaHigh else LineEv.sdaLow) ::
      LineEv.sclHigh :: LineEv.sclLow :: writeBitsAux data i

/-- Line-level model of i2c_write_byte (src/main/drivers/i2c.c lines 131-150):
the 8 data bits, then release SDA, pulse SCL high, sample SDA (the parameter
line is the level the environment presents), pulse SCL low; the returned
acknowledge is the negation of the sampled level. -/
def i2c_write_byte_line (data : Nat) (line : Bool) : List LineEv × Bool :=
  (writeBitsAux data 8 ++
    [LineEv.sdaHigh, LineEv.sclHigh, LineEv.sdaRead line, LineEv.sclLow],
   !line)

/-- Modelled from the spec (sections 4.3 and 6): a single-command transaction
is a start condition, the shifted address byte, the control byte 0x80 tagging a
single command, the command byte, and a stop condition.  The mod 256 is the
identity for the 7-bit addresses the spec allows; it is written explicitly so
the definition covers arbitrary Nat address arguments. -/
def specCmdTxn (addr c : Nat) : List I2CEv :=
  [I2CEv.start, I2CEv.byte ((addr <<< 1) % 256) true,
   I2CEv.byte 0x80 true, I2CEv.byte (c % 256) true, I2CEv.stop]

/-- Modelled from the spec (sections 4.3 and 6): a data-stream transaction is a
start condition, the shifted address byte, the control byte 0x40 tagging
framebuffer data, every payload byte in order, and a stop condition. -/
def specDataTxn (addr : Nat) (bytes : List Nat) : List I2CEv :=
  I2CEv.start :: I2CEv.byte ((addr <<< 1) % 256) true ::
    I2CEv.byte 0x40 true ::
    ((bytes.map fun b => I2CEv.byte (b % 256) true) ++ [I2CEv.stop])

/-- Modelled from the spec (section 4.3 with the opcodes of section 6): the
bring-up command bytes, in order — display off; clock divide setting and its
argument; multiplex ratio (height minus 1); vertical offset 0; start line 0;
charge pump enable; horizontal addressing mode; segment remap; reversed scan
direction; COM pin configuration; contrast (the byte 0xCF the source sends);
pre-charge; VCOMH deselect level; resume from RAM; normal polarity; display
on.  Section 4.3 calls this list a 27-command sequence, but it contains 25
command bytes. -/
def specBringUpCmds : List Nat :=
  [0xAE, 0xD5, 0x80, 0xA8, 0x3F, 0xD3, 0x00, 0x40, 0x8D, 0x14, 0x20, 0x00,
   0xA1, 0xC8, 0xDA, 0x12, 0x81, 0xCF, 0xD9, 0xF1, 0xDB, 0x40, 0xA4, 0xA6, 0xAF]

/-- Modelled from the spec (section 4.3): the command bytes a display refresh
issues before the data stream — column address range 0 to 127 and page address
range 0 to 7, one command byte per transaction. -/
def specDisplayRangeCmds : List Nat := [0x21, 0x00, 0x7F, 0x22, 0x00, 0x07]

/-- Modelled from the spec (section 4.2, write_byte): the 8 data bits are
transmitted most-significant-bit first, the data line driven to each bit value
while the clock is low and the clock pulsed high then low per bit; then the
data line is released and the clock pulsed once more while the data line is
sampled. -/
def specWriteByteTrace (data : Nat) (line : Bool) : List LineEv :=
  (((List.range 8).reverse).map fun i =>
      [(if data.testBit i then LineEv.sdaHigh else LineEv.sdaLow),
       LineEv.sclHigh, LineEv.sclLow]).flatten ++
    [LineEv.sdaHigh, LineEv.sclHigh, LineEv.sdaRead line, LineEv.sclLow]

lemma land_one_shiftLeft_ne_zero (d i : Nat) :
    (d &&& (1 <<< i) ≠ 0) ↔ (d.testBit i = true) := by
  rw [Nat.one_shiftLeft, Nat.and_two_pow]
  rcases h : d.testBit i <;> simp [h]

lemma writeLoop_allAck (data : List Nat) (n : Nat) :
    writeLoop allAck data n =
      (true, n + data.length, data.map fun d => I2CEv.byte (d % 256) true) := by
  induction data generalizing n with
  | nil => simp [writeLoop]
  | cons d ds ih =>
    simp only [writeLoop, wbyteEv, allAck, List.map_cons, List.length_cons]
    simp [ih]
    omega

/-- Claim C8: i2c_init stores (160000000 / freq_hz) / 4 with integer division
as the per-half-bit busy-wait count, ssd1306_init fixes freq_hz at 400000, and
the resulting count for display initialization is exactly 100 iterations. -/
theorem i2c_init_delay_cycles_400khz :
    (∀ config : i2c_config_t,
        i2c_init_delay_cycles config = 160000000 / config.freq_hz / 4) ∧
    (∀ (acks : Nat → Bool) (config : ssd1306_config_t) (n : Nat),
        (ssd1306_init acks config n).i2cCfg.freq_hz = 400000 ∧
        i2c_init_delay_cycles ((ssd1306_init acks config n).i2cCfg) = 100) :=
  ⟨fun _ => rfl, fun _ _ _ => ⟨rfl, by
    show 160000000 / 400000 / 4 = 100
    norm_num⟩⟩

/-- Claim C9: ssd1306_init returns true for every configuration and every
pattern of acknowledge responses — the boolean results of the bring-up command
transactions are all discarded, so a failure branch on its result can never be
taken. -/
theorem ssd1306_init_always_true (acks : Nat → Bool) (config : ssd1306_config_t)
    (n : Nat) : (ssd1306_init acks config n).ok = true := rfl

/-- Claim C5: i2c_write_byte drives the 8 data bits most-significant-bit first,
each bit set up while the clock is low and the clock then pulsed high and low,
then releases the data line and pulses the clock once more while sampling it,
returning true exactly when the sampled line level was low. -/
theorem i2c_write_byte_msb_first_ack_low (data : Nat) (line : Bool) :
    i2c_write_byte_line data line = (specWriteByteTrace data line, decide (line = false)) := by
  have haux : ∀ i : Nat,
      writeBitsAux data i =
        (((List.range i).reverse).map fun k =>
          [(if data.testBit k then LineEv.sdaHigh else LineEv.sdaLow),
           LineEv.sclHigh, LineEv.sclLow]).flatten := by
    intro i
    induction i with
    | zero => simp [writeBitsAux]
    | succ i ih =>
      rw [writeBitsAux, List.range_succ]
      simp only [land_one_shiftLeft_ne_zero, List.reverse_append,
        List.reverse_singleton, List.singleton_append, List.map_cons,
        List.flatten_cons, ih]
      rfl
  cases line <;> simp [i2c_write_byte_line, specWriteByteTrace, haux]

lemma writeLoop_shape (acks : Nat → Bool) (data : List Nat) (n : Nat) :
    I2CEv.start ∉ (writeLoop acks data n).2.2 ∧
    I2CEv.stop ∉ (writeLoop acks data n).2.2 := by
  induction data generalizing n with
  | nil => simp [writeLoop]
  | cons d ds ih =>
    simp only [writeLoop, wbyteEv]
    cases h : acks n with
    | false => simp [h]
    | true =>
      obtain ⟨ih1, ih2⟩ := ih (n + 1)
      simp [h, ih1, ih2]

lemma exists_ack_shift (acks : Nat → Bool) (n len : Nat) (h : acks n = true) :
    (∃ k, k < len ∧ acks (n + 1 + k) = false) ↔
      (∃ k, k < len + 1 ∧ acks (n + k) = false) := by
  constructor
  · rintro ⟨k, hk, hf⟩
    exact ⟨k + 1, by omega, by rwa [show n + (k + 1) = n + 1 + k by omega]⟩
  · rintro ⟨k, hk, hf⟩
    cases k with
    | zero => rw [Nat.add_zero] at hf; exact absurd hf (by simp [h])
    | succ k => exact ⟨k, by omega, by rwa [show n + 1 + k = n + (k + 1) by omega]⟩

lemma writeLoop_false_iff (acks : Nat → Bool) (data : List Nat) (n : Nat) :
    (writeLoop acks data n).1 = false ↔
      ∃ k, k < data.length ∧ acks (n + k) = false := by
  induction data generalizing n with
  | nil => simp [writeLoop]
  | cons d ds ih =>
    cases h : acks n with
    | false =>
      refine iff_of_true (by simp [writeLoop, wbyteEv, h]) ⟨0, by simp, by simpa using h⟩
    | true =>
      simp [writeLoop, wbyteEv, h]
      rw [ih (n + 1)]
      exact exists_ack_shift acks n ds.length h

/-- Claim C3: every i2c_write and i2c_write_reg call that issues a start
condition also issues a stop condition before returning — its trace is one
start, a middle part containing neither start nor stop, and one final stop, on
every path — and the boolean result is false exactly when some transmitted
byte (address, register or payload) went unacknowledged. -/
theorem i2c_write_start_stop_bracket (acks : Nat → Bool) (addr reg : Nat)
    (data : List Nat) (n : Nat) :
    (∃ mid, (i2c_write acks addr data n).2.2 = I2CEv.start :: mid ++ [I2CEv.stop] ∧
        mid.count I2CEv.start = 0 ∧ mid.count I2CEv.stop = 0) ∧
    ((i2c_write acks addr data n).1 = false ↔
        ∃ k, k < data.length + 1 ∧ acks (n + k) = false) ∧
    (∃ mid, (i2c_write_reg acks addr reg data n).2.2 =
          I2CEv.start :: mid ++ [I2CEv.stop] ∧
        mid.count I2CEv.start = 0 ∧ mid.count I2CEv.stop = 0) ∧
    ((i2c_write_reg acks addr reg data n).1 = false ↔
        ∃ k, k < data.length + 2 ∧ acks (n + k) = false) := by
  refine ⟨?_, ?_, ?_, ?_⟩
  · cases h : acks n with
    | false =>
      exact ⟨[I2CEv.byte ((addr <<< 1) % 256) false],
        by simp [i2c_write, i2c_start, i2c_stop, wbyteEv, h], by simp, by simp⟩
    | true =>
      obtain ⟨h1, h2⟩ := writeLoop_shape acks data (n + 1)
      refine ⟨I2CEv.byte ((addr <<< 1) % 256) true :: (writeLoop acks data (n + 1)).2.2,
        by simp [i2c_write, i2c_start, i2c_stop, wbyteEv, h], ?_, ?_⟩
      · rw [List.count_eq_zero]
        simp [h1]
      · rw [List.count_eq_zero]
        simp [h2]
  · cases h : acks n with
    | false =>
      refine iff_of_true (by simp [i2c_write, i2c_start, wbyteEv, h])
        ⟨0, by omega, by simpa using h⟩
    | true =>
      have he : (i2c_write acks addr data n).1 = (writeLoop acks data (n + 1)).1 := by
        simp [i2c_write, i2c_start, wbyteEv, h]
      rw [he, writeLoop_false_iff]
      exact exists_ack_shift acks n data.length h
  · cases h : acks n with
    | false =>
      exact ⟨[I2CEv.byte ((addr <<< 1) % 256) false],
        by simp [i2c_write_reg, i2c_start, i2c_stop, wbyteEv, h], by simp, by simp⟩
    | true =>
      cases h2 : acks (n + 1) with
      | false =>
        exact ⟨[I2CEv.byte ((addr <<< 1) % 256) true, I2CEv.byte (reg % 256) false],
          by simp [i2c_write_reg, i2c_start, i2c_stop, wbyteEv, h, h2],
          by simp, by simp⟩
      | true =>
        obtain ⟨h3, h4⟩ := writeLoop_shape acks data (n + 2)
        refine ⟨I2CEv.byte ((addr <<< 1) % 256) true :: I2CEv.byte (reg % 256) true ::
            (writeLoop acks data (n + 2)).2.2,
          by simp [i2c_write_reg, i2c_start, i2c_stop, wbyteEv, h, h2], ?_, ?_⟩
        · rw [List.count_eq_zero]
          simp [h3]
        · rw [List.count_eq_zero]
          simp [h4]
  · cases h : acks n with
    | false =>
      refine iff_of_true (by simp [i2c_write_reg, i2c_start, wbyteEv, h])
        ⟨0, by omega, by simpa using h⟩
    | true =>
      cases h2 : acks (n + 1) with
      | false =>
        refine iff_of_true (by simp [i2c_write_reg, i2c_start, wbyteEv, h, h2])
          ⟨1, by omega, by simpa using h2⟩
      | true =>
        have he : (i2c_write_reg acks addr reg data n).1 =
            (writeLoop acks data (n + 2)).1 := by
          simp [i2c_write_reg, i2c_start, wbyteEv, h, h2]
        rw [he, writeLoop_false_iff]
        exact Iff.trans (exists_ack_shift acks (n + 1) data.length h2)
          (exists_ack_shift acks n (data.length + 1) h)

lemma writeLoop_acked (acks : Nat → Bool) :
    ∀ (data : List Nat) (n : Nat), (∀ b ∈ data, b < 256) →
      (∀ k, k < data.length → acks (n + k) = true) →
      writeLoop acks data n =
        (true, n + data.length, data.map fun b => I2CEv.byte b true) := by
  intro data
  induction data with
  | nil => intro n _ _; simp [writeLoop]
  | cons d ds ih =>
    intro n hd h
    have h0 : acks n = true := by simpa using h 0 (by simp)
    have hlt : d % 256 = d := Nat.mod_eq_of_lt (hd d (by simp))
    have hih := ih (n + 1) (fun b hb => hd b (by simp [hb]))
      (fun k hk => by
        rw [show n + 1 + k = n + (k + 1) by omega]
        exact h (k + 1) (by simpa using Nat.succ_lt_succ hk))
    simp [writeLoop, wbyteEv, h0, hlt, hih]
    omega

/-- Claim C4: for a 7-bit address, a register byte and a fully acknowledged
payload, i2c_write_reg transmits exactly start, the address shifted left one
bit with the write bit 0 in the low bit (never pre-shifted by the caller),
the register byte, each data byte in order, and stop, and reports success. -/
theorem i2c_write_reg_exact_bytes (acks : Nat → Bool) (addr reg : Nat)
    (data : List Nat) (n : Nat) (haddr : addr < 128) (hreg : reg < 256)
    (hdata : ∀ b ∈ data, b < 256)
    (hacks : ∀ k, k < data.length + 2 → acks (n + k) = true) :
    i2c_write_reg acks addr reg data n =
      (true, n + data.length + 2,
        I2CEv.start :: I2CEv.byte (2 * addr) true :: I2CEv.byte reg true ::
          ((data.map fun b => I2CEv.byte b true) ++ [I2CEv.stop])) := by
  have h0 : acks n = true := by simpa using hacks 0 (by omega)
  have h1 : acks (n + 1) = true := hacks 1 (by omega)
  have haddr2 : (addr <<< 1) % 256 = 2 * addr := by
    rw [Nat.shiftLeft_eq, pow_one, Nat.mod_eq_of_lt (by omega)]
    omega
  have hloop := writeLoop_acked acks data (n + 2) hdata
    (fun k hk => by
      rw [show n + 2 + k = n + (k + 2) by omega]
      exact hacks (k + 2) (by omega))
  simp [i2c_write_reg, i2c_start, i2c_stop, wbyteEv, h0, h1, haddr2,
    Nat.mod_eq_of_lt hreg, hloop]
  omega

/-- Witness for claim C4 at a concrete input: device 0x3C, register 0x00,
payload [0xAA, 0x55], all bytes acknowledged. -/
theorem i2c_write_reg_exact_bytes_witness :
    i2c_write_reg allAck 0x3C 0x00 [0xAA, 0x55] 0 =
      (true, 4,
        I2CEv.start :: I2CEv.byte 0x78 true :: I2CEv.byte 0x00 true ::
          (([0xAA, 0x55].map fun b => I2CEv.byte b true) ++ [I2CEv.stop])) :=
  i2c_write_reg_exact_bytes allAck 0x3C 0x00 [0xAA, 0x55] 0 (by decide) (by decide)
    (by decide) (fun k _ => rfl)

lemma ssd1306_send_command_allAck (addr cmd n : Nat) :
    ssd1306_send_command allAck addr cmd n = (true, n + 3, specCmdTxn addr cmd) := by
  simp [ssd1306_send_command, i2c_write, i2c_start, i2c_stop, wbyteEv, allAck,
    writeLoop, specCmdTxn, SSD1306_CONTROL_CMD_SINGLE]

lemma ssd1306_send_data_allAck (addr : Nat) (data : List Nat) (n : Nat) :
    ssd1306_send_data allAck addr data n =
      (true, n + data.length + 2, specDataTxn addr data) := by
  simp [ssd1306_send_data, i2c_start, i2c_stop, wbyteEv, allAck,
    writeLoop_allAck, specDataTxn, SSD1306_CONTROL_DATA_STREAM]
  omega

/-- Claim C2 (amended): for every framebuffer state, ssd1306_display sets the
column range 0..127 and the page range 0..7 via six command transactions — one
transaction of control byte 0x80 per command byte 0x21, 0x00, 0x7F, 0x22, 0x00,
0x07 — and then sends the entire 1024-byte framebuffer as one single bus
transaction: one start, one address byte, one data-stream control byte 0x40,
all framebuffer bytes in order, one stop. -/
theorem ssd1306_display_trace (addr : Nat) (buf : FB) (n : Nat) :
    (ssd1306_display allAck addr buf n).2 =
      (specDisplayRangeCmds.map (specCmdTxn addr)).flatten ++
        specDataTxn addr (fbBytes buf) ∧
    (fbBytes buf).length = 1024 := by
  constructor
  · simp [ssd1306_display, ssd1306_send_command_allAck, ssd1306_send_data_allAck,
      specDisplayRangeCmds, SSD1306_CMD_COLUMN_ADDR, SSD1306_CMD_PAGE_ADDR,
      SSD1306_WIDTH, SSD1306_HEIGHT]
  · simp [fbBytes, SSD1306_WIDTH, SSD1306_HEIGHT]

/-- Counterexample to claim C2 as stated: at a concrete framebuffer, the
refresh issues six single-command transactions before the data stream, not
two. -/
theorem ssd1306_display_cmd_txn_count_ne_two :
    (cmdPayloads (ssd1306_display allAck 0x3C ssd1306_clear 0).2).length = 6 ∧
    ¬ (cmdPayloads (ssd1306_display allAck 0x3C ssd1306_clear 0).2).length = 2 := by
  decide

lemma fbBytes_clear : fbBytes ssd1306_clear = List.replicate 1024 0 := by
  show (List.range 1024).map (fun _ => 0) = List.replicate 1024 0
  rw [List.map_const', List.length_range]

lemma init_trace_allAck_eq :
    (ssd1306_init allAck
        { i2c_addr := SSD1306_I2C_ADDR_DEFAULT, scl_pin := 8, sda_pin := 10 } 0).tr =
      (specBringUpCmds.map (specCmdTxn SSD1306_I2C_ADDR_DEFAULT)).flatten ++
        (specDisplayRangeCmds.map (specCmdTxn SSD1306_I2C_ADDR_DEFAULT)).flatten ++
        specDataTxn SSD1306_I2C_ADDR_DEFAULT (List.replicate 1024 0) := by
  have hor1 : SSD1306_CMD_SET_START_LINE ||| 0x00 = (0x40 : Nat) := by decide
  have hor2 : SSD1306_CMD_SEG_REMAP ||| 0x01 = (0xA1 : Nat) := by decide
  simp [ssd1306_init, ssd1306_display, ssd1306_send_command_allAck,
    ssd1306_send_data_allAck, fbBytes_clear, hor1, hor2, specBringUpCmds,
    specDisplayRangeCmds, SSD1306_I2C_ADDR_DEFAULT, SSD1306_CMD_DISPLAY_OFF,
    SSD1306_CMD_SET_DISPLAY_CLK_DIV, SSD1306_CMD_SET_MULTIPLEX,
    SSD1306_CMD_SET_DISPLAY_OFFSET, SSD1306_CMD_CHARGE_PUMP,
    SSD1306_CMD_MEMORY_MODE, SSD1306_CMD_COM_SCAN_DEC, SSD1306_CMD_SET_COM_PINS,
    SSD1306_CMD_SET_CONTRAST, SSD1306_CMD_SET_PRECHARGE,
    SSD1306_CMD_SET_VCOM_DETECT, SSD1306_CMD_DISPLAY_ALL_ON_RESUME,
    SSD1306_CMD_NORMAL_DISPLAY, SSD1306_CMD_DISPLAY_ON, SSD1306_CMD_COLUMN_ADDR,
    SSD1306_CMD_PAGE_ADDR, SSD1306_WIDTH, SSD1306_HEIGHT]

/-- Claim C1 (amended): with every byte acknowledged, ssd1306_init at the
default address issues — after bus setup and the settle delay — exactly the
25-command bring-up sequence of spec section 4.3 byte-for-byte and in strict
order (including segment remap 0xA1 and scan direction 0xC8, with the contrast
argument 0xCF), each command byte as its own transaction of control byte 0x80
followed by the command byte, and then the six range commands and the
1024-byte data transaction of the embedded clear-and-refresh. -/
theorem ssd1306_init_bringup_trace :
    (ssd1306_init allAck
        { i2c_addr := SSD1306_I2C_ADDR_DEFAULT, scl_pin := 8, sda_pin := 10 } 0).tr =
      (specBringUpCmds.map (specCmdTxn SSD1306_I2C_ADDR_DEFAULT)).flatten ++
        (specDisplayRangeCmds.map (specCmdTxn SSD1306_I2C_ADDR_DEFAULT)).flatten ++
        specDataTxn SSD1306_I2C_ADDR_DEFAULT (List.replicate 1024 0) :=
  init_trace_allAck_eq

lemma cmdPayloads_cmdTxn (addr c : Nat) (rest : List I2CEv) :
    cmdPayloads (specCmdTxn addr c ++ rest) = c % 256 :: cmdPayloads rest := by
  simp [specCmdTxn, cmdPayloads]

lemma cmdPayloads_flatten_cmds (addr : Nat) (l : List Nat) (rest : List I2CEv) :
    cmdPayloads ((l.map (specCmdTxn addr)).flatten ++ rest) =
      (l.map fun c => c % 256) ++ cmdPayloads rest := by
  induction l with
  | nil => simp
  | cons c cs ih => simp [cmdPayloads_cmdTxn, ih, List.append_assoc]

/-- Counterexample to claim C1 as stated: the bring-up sequence of spec
section 4.3 contains 25 commands, not 27; the full count of single-command
transactions issued by ssd1306_init (including the embedded refresh) is 31;
and the contrast command carries the argument 0xCF, which is not the maximum
level 0xFF. -/
theorem ssd1306_init_cmd_count_ne_27 :
    (cmdPayloads (ssd1306_init allAck
        { i2c_addr := SSD1306_I2C_ADDR_DEFAULT, scl_pin := 8, sda_pin := 10 } 0).tr).length
        = 31 ∧
    ¬ (cmdPayloads (ssd1306_init allAck
        { i2c_addr := SSD1306_I2C_ADDR_DEFAULT, scl_pin := 8, sda_pin := 10 } 0).tr).length
        = 27 ∧
    specBringUpCmds.length = 25 ∧ ¬ specBringUpCmds.length = 27 ∧
    (cmdPayloads (ssd1306_init allAck
        { i2c_addr := SSD1306_I2C_ADDR_DEFAULT, scl_pin := 8, sda_pin := 10 } 0).tr).take 25
        = specBringUpCmds ∧
    ((cmdPayloads (ssd1306_init allAck
        { i2c_addr := SSD1306_I2C_ADDR_DEFAULT, scl_pin := 8, sda_pin := 10 } 0).tr).drop
        16).take 2 = [0x81, 0xCF] ∧
    ¬ (0xCF : Nat) = 0xFF := by
  have hd : cmdPayloads
      (specDataTxn SSD1306_I2C_ADDR_DEFAULT (List.replicate 1024 0)) = [] := by
    decide
  rw [init_trace_allAck_eq, List.append_assoc, cmdPayloads_flatten_cmds,
    cmdPayloads_flatten_cmds, hd]
  decide

lemma testBit_set_mask (b k : Nat) : (b ||| (1 <<< k)).testBit k = true := by
  rw [Nat.testBit_lor, Nat.one_shiftLeft, Nat.testBit_two_pow_self]
  simp

lemma testBit_clear_mask (b k : Nat) (hk : k < 8) :
    (b &&& (255 ^^^ (1 <<< k))).testBit k = false := by
  have h255 : (255 : Nat) = 2 ^ 8 - 1 := by norm_num
  rw [Nat.testBit_land, Nat.one_shiftLeft, Nat.testBit_xor, h255,
    Nat.testBit_two_pow_sub_one, Nat.testBit_two_pow_self]
  simp [hk]

lemma lor_mask_idem (b m : Nat) : (b ||| m) ||| m = b ||| m := by
  refine Nat.eq_of_testBit_eq fun i => ?_
  simp only [Nat.testBit_lor]
  cases hb : b.testBit i <;> cases hm : m.testBit i <;> rfl

lemma land_mask_idem (b m : Nat) : (b &&& m) &&& m = b &&& m := by
  refine Nat.eq_of_testBit_eq fun i => ?_
  simp only [Nat.testBit_land]
  cases hb : b.testBit i <;> cases hm : m.testBit i <;> rfl

lemma set_pixel_oob (buf : FB) (x y : Int) (color : Nat)
    (h : x < 0 ∨ x ≥ (SSD1306_WIDTH : Int) ∨ y < 0 ∨ y ≥ (SSD1306_HEIGHT : Int)) :
    ssd1306_set_pixel buf x y color = buf := by
  unfold ssd1306_set_pixel
  rw [if_pos h]

/-- Claim C6: for in-bounds coordinates, ssd1306_set_pixel followed by reading
bit (y and 7) of framebuffer byte x + (y / 8) * 128 yields the written value;
out-of-bounds coordinates leave the whole framebuffer unchanged with no
error. -/
theorem set_pixel_readback (buf : FB) (x y : Int) (color : Nat) :
    (0 ≤ x → x < 128 → 0 ≤ y → y < 64 →
      ((ssd1306_set_pixel buf x y color) ((x + y / 8 * 128).toNat)).testBit
          (y.toNat &&& 7) = decide (color ≠ 0)) ∧
    (x < 0 ∨ x ≥ (SSD1306_WIDTH : Int) ∨ y < 0 ∨ y ≥ (SSD1306_HEIGHT : Int) →
      ssd1306_set_pixel buf x y color = buf) := by
  constructor
  · intro hx0 hx hy0 hy
    have hk : y.toNat &&& 7 < 8 := by
      have h7 : y.toNat &&& 7 ≤ 7 := Nat.and_le_right
      omega
    by_cases hc : color = 0
    · simp only [ssd1306_set_pixel, SSD1306_WIDTH, SSD1306_HEIGHT, Nat.cast_ofNat,
        ge_iff_le, hc, ne_eq, not_true_eq_false, if_false, ite_false]
      rw [if_neg (by omega : ¬(x < 0 ∨ (128 : Int) ≤ x ∨ y < 0 ∨ (64 : Int) ≤ y))]
      rw [Function.update_same, testBit_clear_mask _ _ hk]
      simp
    · simp only [ssd1306_set_pixel, SSD1306_WIDTH, SSD1306_HEIGHT, Nat.cast_ofNat,
        ge_iff_le, ne_eq, hc, not_false_eq_true, if_true, ite_true]
      rw [if_neg (by omega : ¬(x < 0 ∨ (128 : Int) ≤ x ∨ y < 0 ∨ (64 : Int) ≤ y))]
      rw [Function.update_same, testBit_set_mask]
      simp [hc]
  · exact set_pixel_oob buf x y color

/-- Witness for claim C6 at concrete inputs: writing pixel (3, 5) on and
reading it back through the packed-bit formula, and a no-op write at the
out-of-bounds column 200. -/
theorem set_pixel_readback_witness :
    ((ssd1306_set_pixel (fun _ => 0) 3 5 1) (((3 : Int) + 5 / 8 * 128).toNat)).testBit
        ((5 : Int).toNat &&& 7) = decide ((1 : Nat) ≠ 0) ∧
    ssd1306_set_pixel (fun _ => 0) 200 5 1 = (fun _ => 0) :=
  ⟨(set_pixel_readback (fun _ => 0) 3 5 1).1 (by decide) (by decide) (by decide)
      (by decide),
   (set_pixel_readback (fun _ => 0) 200 5 1).2 (Or.inr (Or.inl (by decide)))⟩

/-- Claim C10: ssd1306_set_pixel modifies at most the framebuffer byte at
index x + (y / 8) * 128, leaves every byte unchanged for out-of-bounds
coordinates, and is idempotent. -/
theorem set_pixel_frame_idempotent (buf : FB) (x y : Int) (color : Nat) :
    (∀ j : Nat, j ≠ (x + y / 8 * (SSD1306_WIDTH : Int)).toNat →
        ssd1306_set_pixel buf x y color j = buf j) ∧
    (x < 0 ∨ x ≥ (SSD1306_WIDTH : Int) ∨ y < 0 ∨ y ≥ (SSD1306_HEIGHT : Int) →
        ∀ j : Nat, ssd1306_set_pixel buf x y color j = buf j) ∧
    ssd1306_set_pixel (ssd1306_set_pixel buf x y color) x y color =
      ssd1306_set_pixel buf x y color := by
  refine ⟨?_, ?_, ?_⟩
  · intro j hj
    unfold ssd1306_set_pixel
    split
    · rfl
    · split
      · exact Function.update_noteq hj _ buf
      · exact Function.update_noteq hj _ buf
  · intro h j
    rw [set_pixel_oob buf x y color h]
  · by_cases hg : x < 0 ∨ x ≥ (SSD1306_WIDTH : Int) ∨ y < 0 ∨ y ≥ (SSD1306_HEIGHT : Int)
    · rw [set_pixel_oob buf x y color hg, set_pixel_oob buf x y color hg]
    · by_cases hc : color ≠ 0
      · have e1 : ssd1306_set_pixel buf x y color =
            Function.update buf ((x + y / 8 * (SSD1306_WIDTH : Int)).toNat)
              (buf ((x + y / 8 * (SSD1306_WIDTH : Int)).toNat) |||
                (1 <<< (y.toNat &&& 7))) := by
          unfold ssd1306_set_pixel
          rw [if_neg hg, if_pos hc]
        rw [e1]
        unfold ssd1306_set_pixel
        rw [if_neg hg, if_pos hc, Function.update_same, lor_mask_idem,
          Function.update_idem]
      · have e1 : ssd1306_set_pixel buf x y color =
            Function.update buf ((x + y / 8 * (SSD1306_WIDTH : Int)).toNat)
              (buf ((x + y / 8 * (SSD1306_WIDTH : Int)).toNat) &&&
                (255 ^^^ (1 <<< (y.toNat &&& 7)))) := by
          unfold ssd1306_set_pixel
          rw [if_neg hg, if_neg hc]
        rw [e1]
        unfold ssd1306_set_pixel
        rw [if_neg hg, if_neg hc, Function.update_same, land_mask_idem,
          Function.update_idem]

/-- Witness for claim C10 at concrete inputs: writing pixel (3, 5) leaves byte
0 (a byte other than the addressed byte 3) unchanged, and an out-of-bounds
write at column 200 leaves byte 7 unchanged. -/
theorem set_pixel_frame_idempotent_witness :
    ssd1306_set_pixel (fun _ => 0) 3 5 1 0 = (fun _ => (0 : Nat)) 0 ∧
    ssd1306_set_pixel (fun _ => 0) 200 5 1 7 = (fun _ => (0 : Nat)) 7 :=
  ⟨(set_pixel_frame_idempotent (fun _ => 0) 3 5 1).1 0 (by decide),
   (set_pixel_frame_idempotent (fun _ => 0) 200 5 1).2.1 (Or.inr (Or.inl (by decide))) 7⟩

lemma foldl_id {α β : Type} (l : List β) (f : α → β → α) (a : α)
    (h : ∀ (a2 : α) (b : β), b ∈ l → f a2 b = a2) : l.foldl f a = a := by
  induction l generalizing a with
  | nil => rfl
  | cons c cs ih =>
    rw [List.foldl_cons, h a c (by simp)]
    exact ih a fun a2 b hb => h a2 b (by simp [hb])

lemma draw_char_bottom (font : Font) (buf : FB) (x y : Int) (c : Nat)
    (h : (SSD1306_HEIGHT : Int) ≤ y) : ssd1306_draw_char font buf x y c = buf := by
  unfold ssd1306_draw_char
  refine foldl_id _ _ _ fun b i hi => ?_
  refine foldl_id _ _ _ fun b2 j hj => ?_
  have hj0 : (0 : Int) ≤ (j : Int) := Int.natCast_nonneg j
  have hy : (SSD1306_HEIGHT : Int) ≤ y + (j : Int) := by omega
  split <;> split
  all_goals
    first
      | rfl
      | exact set_pixel_oob _ _ _ _ (Or.inr (Or.inr (Or.inr hy)))

lemma drawStrAux_bottom (font : Font) (x : Int) (s : List Nat) :
    ∀ (cx y : Int) (buf : FB), (SSD1306_HEIGHT : Int) ≤ y →
      drawStrAux font x s cx y buf = buf := by
  induction s with
  | nil => intro cx y buf h; rfl
  | cons c rest ih =>
    intro cx y buf h
    have h8 : (SSD1306_HEIGHT : Int) ≤ y + 8 := by omega
    unfold drawStrAux
    split
    · exact ih x (y + 8) buf h8
    · rw [draw_char_bottom font buf cx y c h]
      show (if cx + 6 ≥ (SSD1306_WIDTH : Int) then drawStrAux font x rest x (y + 8) buf
        else drawStrAux font x rest (cx + 6) y buf) = buf
      split
      · exact ih x (y + 8) buf h8
      · exact ih (cx + 6) y buf h

/-- Counterexample to claim C7 as stated: drawing a character entirely below
the bottom row (y = 64, with a font whose glyph bits are all set) leaves the
framebuffer unchanged — the driver silently drops the out-of-range pixels via
the bounds check in ssd1306_set_pixel; it does not wrap the buffer index. -/
theorem draw_string_bottom_drop_counterexample :
    ssd1306_draw_string (fun _ _ => 255) (fun _ => 0) 0 64 [65] = (fun _ => 0) := by
  have h : (SSD1306_HEIGHT : Int) ≤ 64 := by simp [SSD1306_HEIGHT]
  exact drawStrAux_bottom (fun _ _ => 255) 0 [65] 0 64 (fun _ => 0) h

/-- Claim C7 (amended): ssd1306_draw_string advances the cursor 6 pixels per
character, resets the cursor to x and advances the row by 8 on the line-break
character 10 or when the advanced cursor reaches the display width 128, and
neither scrolls nor crashes on rows past the bottom: pixels below row 63 are
silently dropped by the set-pixel bounds check (the buffer index is not
wrapped), so drawing wholly past the bottom row leaves the buffer
unchanged. -/
theorem draw_string_cursor_and_clip (font : Font) (buf : FB) (x cx y : Int)
    (c : Nat) (s : List Nat) :
    (c ≠ 10 → cx + 6 < 128 →
        drawStrAux font x (c :: s) cx y buf =
          drawStrAux font x s (cx + 6) y (ssd1306_draw_char font buf cx y c)) ∧
    (c ≠ 10 → 128 ≤ cx + 6 →
        drawStrAux font x (c :: s) cx y buf =
          drawStrAux font x s x (y + 8) (ssd1306_draw_char font buf cx y c)) ∧
    drawStrAux font x (10 :: s) cx y buf = drawStrAux font x s x (y + 8) buf ∧
    (64 ≤ y → ssd1306_draw_string font buf x y s = buf) := by
  refine ⟨?_, ?_, ?_, ?_⟩
  · intro hc hw
    have hcond : ¬(cx + 6 ≥ (SSD1306_WIDTH : Int)) := by
      simp only [SSD1306_WIDTH, Nat.cast_ofNat, ge_iff_le, not_le]
      omega
    simp [drawStrAux, hc, hcond]
  · intro hc hw
    have hcond : cx + 6 ≥ (SSD1306_WIDTH : Int) := by
      simp only [SSD1306_WIDTH, Nat.cast_ofNat, ge_iff_le]
      omega
    simp [drawStrAux, hc, hcond]
  · simp [drawStrAux]
  · intro h
    refine drawStrAux_bottom font x s x y buf ?_
    simp only [SSD1306_HEIGHT, Nat.cast_ofNat]
    omega

/-- Witness for claim C7 at concrete inputs: a character advances the cursor
from 0 to 6; a character drawn at cursor 125 wraps the cursor back to the
starting column 5 and advances the row by 8; and a string drawn at row 64 is
dropped entirely. -/
theorem draw_string_cursor_and_clip_witness :
    drawStrAux (fun _ _ => 0) 0 [65] 0 0 (fun _ => 0) =
      drawStrAux (fun _ _ => 0) 0 [] 6 0
        (ssd1306_draw_char (fun _ _ => 0) (fun _ => 0) 0 0 65) ∧
    drawStrAux (fun _ _ => 0) 5 [66] 125 0 (fun _ => 0) =
      drawStrAux (fun _ _ => 0) 5 [] 5 8
        (ssd1306_draw_char (fun _ _ => 0) (fun _ => 0) 125 0 66) ∧
    ssd1306_draw_string (fun _ _ => 0) (fun _ => 0) 0 64 [65] = (fun _ => 0) :=
  ⟨(draw_string_cursor_and_clip (fun _ _ => 0) (fun _ => 0) 0 0 0 65 []).1
      (by decide) (by decide),
   (draw_string_cursor_and_clip (fun _ _ => 0) (fun _ => 0) 5 125 0 66 []).2.1
      (by decide) (by decide),
   (draw_string_cursor_and_clip (fun _ _ => 0) (fun _ => 0) 0 0 64 65 []).2.2.2
      (by decide)⟩

end Esp32
